import Mathlib

/-!
Shallow embedding of the Navigation Subsystem of the Vehicle GPS system
(GPSNavigator.h / GPSNavigator.cpp): coordinate validation, haversine
distance, GPS signal-quality monitoring, and the navigation status state
machine, together with theorems settling the specification claims.

Real-valued fields of the C++ code (`double`) are modelled as `ℝ`;
notifications are modelled as a list of (message, level) pairs emitted by
each operation, where messages are an inductive type carrying the payload
of each `addNotification` call site.
-/

namespace VehicleGPS

open Real
open scoped Classical

/-- Earth radius in kilometers (`EARTH_RADIUS_KM` in GPSNavigator.cpp). -/
def EARTH_RADIUS_KM : ℝ := 6371.0

/-- Minimum acceptable GPS accuracy in meters (`MIN_GPS_ACCURACY`). -/
def MIN_GPS_ACCURACY : ℝ := 10.0

/-- Minimum satellites for a good fix (`MIN_SATELLITES`). -/
def MIN_SATELLITES : ℤ := 4

/-- GPS coordinate: latitude/longitude in decimal degrees, altitude in meters. -/
structure GPSCoordinate where
  latitude : ℝ
  longitude : ℝ
  altitude : ℝ

/-- `GPSCoordinate::isValid`: latitude in [-90, 90] and longitude in [-180, 180];
altitude never invalidates a coordinate. -/
def GPSCoordinate.isValid (c : GPSCoordinate) : Prop :=
  (-90 ≤ c.latitude ∧ c.latitude ≤ 90) ∧ (-180 ≤ c.longitude ∧ c.longitude ≤ 180)

/-- A waypoint: a coordinate plus name and address metadata. -/
structure Waypoint where
  coordinate : GPSCoordinate
  name : String
  address : String

/-- Navigation status enumeration (`NavigationStatus`). -/
inductive NavigationStatus where
  | IDLE
  | NAVIGATING
  | ARRIVED
  | OFF_ROUTE
  | GPS_LOST
deriving DecidableEq

/-- Alert severity (`AlertLevel` from NotificationManager.h). -/
inductive AlertLevel where
  | INFO
  | WARNING
  | CRITICAL
deriving DecidableEq

/-- Notification messages: one constructor per `addNotification` call site in
GPSNavigator.cpp, carrying the data interpolated into the C++ message string.
  - `invalidGPSCoordinates`  = "Invalid GPS coordinates received"
  - `invalidDestination`     = "Invalid destination coordinates"
  - `destinationSet`         = "Destination set: <name> (<coord>)"
  - `noDestinationSet`       = "No destination set for navigation"
  - `gpsUnavailableCannotStart` = "GPS signal unavailable - cannot start navigation"
  - `navigationStarted`      = "Navigation started - Distance: <d> km, ETA: <eta> min"
  - `navigationStopped`      = "Navigation stopped"
  - `destinationReached`     = "Destination reached!"
  - `invalidWaypoint`        = "Invalid waypoint coordinates"
  - `waypointAdded`          = "Waypoint added: <name>"
  - `gpsSignalLost`          = "GPS signal lost!"
  - `gpsSignalRestored`      = "GPS signal restored" -/
inductive Msg where
  | invalidGPSCoordinates
  | invalidDestination
  | destinationSet (name : String) (dest : GPSCoordinate)
  | noDestinationSet
  | gpsUnavailableCannotStart
  | navigationStarted (distance eta : ℝ)
  | navigationStopped
  | destinationReached
  | invalidWaypoint
  | waypointAdded (name : String)
  | gpsSignalLost
  | gpsSignalRestored

/-- A notification: message plus alert level. -/
abbrev Notification := Msg × AlertLevel

/-- Two-argument arctangent, the mathematical function computed by C `atan2`
(standard quadrant-correct convention). -/
noncomputable def atan2 (y x : ℝ) : ℝ :=
  if 0 < x then arctan (y / x)
  else if x < 0 ∧ 0 ≤ y then arctan (y / x) + π
  else if x < 0 ∧ y < 0 then arctan (y / x) - π
  else if x = 0 ∧ 0 < y then π / 2
  else if x = 0 ∧ y < 0 then -(π / 2)
  else 0

/-- The intermediate value `a` of the haversine computation in
`GPSNavigator::calculateDistance`:
`a = sin(Δlat/2)·sin(Δlat/2) + cos(lat1)·cos(lat2)·sin(Δlon/2)·sin(Δlon/2)`
with all angles converted from degrees to radians. -/
noncomputable def haversineTerm (coord1 coord2 : GPSCoordinate) : ℝ :=
  let lat1Rad := coord1.latitude * π / 180
  let lat2Rad := coord2.latitude * π / 180
  let deltaLatRad := (coord2.latitude - coord1.latitude) * π / 180
  let deltaLonRad := (coord2.longitude - coord1.longitude) * π / 180
  sin (deltaLatRad / 2) * sin (deltaLatRad / 2) +
    cos lat1Rad * cos lat2Rad * sin (deltaLonRad / 2) * sin (deltaLonRad / 2)

/-- `GPSNavigator::calculateDistance`: haversine great-circle distance in km on a
sphere of radius `EARTH_RADIUS_KM`; returns -1 if either coordinate is invalid. -/
noncomputable def calculateDistance (coord1 coord2 : GPSCoordinate) : ℝ :=
  if ¬ coord1.isValid ∨ ¬ coord2.isValid then -1
  else
    let a := haversineTerm coord1 coord2
    let c := 2 * atan2 (Real.sqrt a) (Real.sqrt (1 - a))
    EARTH_RADIUS_KM * c

/-- Distance function written from the specification's words (§4.2), for the
refinement claim about `calculateDistance`: "implements the haversine
great-circle formula assuming a spherical Earth of radius 6371.0 km …
`h = sin²(Δlat/2) + cos(lat1)·cos(lat2)·sin²(Δlon/2)`;
`distance = 2·R·atan2(√h, √(1-h))` … Returns `-1` if either input is
invalid", with angles converted to radians. -/
noncomputable def distanceSpec (a b : GPSCoordinate) : ℝ :=
  if ¬ a.isValid ∨ ¬ b.isValid then -1
  else
    let lat1 := a.latitude * π / 180
    let lat2 := b.latitude * π / 180
    let dlat := (b.latitude - a.latitude) * π / 180
    let dlon := (b.longitude - a.longitude) * π / 180
    let h := sin (dlat / 2) ^ 2 + cos lat1 * cos lat2 * sin (dlon / 2) ^ 2
    2 * 6371.0 * atan2 (Real.sqrt h) (Real.sqrt (1 - h))

/-- The mutable session state of a `GPSNavigator` instance. -/
structure NavState where
  currentLocation : GPSCoordinate
  destination : GPSCoordinate
  status : NavigationStatus
  currentSpeed : ℝ
  currentHeading : ℝ
  gpsSignalAvailable : Bool
  satelliteCount : ℤ
  accuracy : ℝ
  route : List Waypoint

/-- The state established by the `GPSNavigator` constructor. -/
def initState : NavState where
  currentLocation := ⟨0, 0, 0⟩
  destination := ⟨0, 0, 0⟩
  status := .IDLE
  currentSpeed := 0
  currentHeading := 0
  gpsSignalAvailable := true
  satelliteCount := 8
  accuracy := 3.0
  route := []

/-- `GPSNavigator::getDistanceToDestination`. -/
noncomputable def getDistanceToDestination (st : NavState) : ℝ :=
  if ¬ st.destination.isValid ∨ ¬ st.currentLocation.isValid then -1
  else calculateDistance st.currentLocation st.destination

/-- `GPSNavigator::getEstimatedTimeToArrival` (minutes). -/
noncomputable def getEstimatedTimeToArrival (st : NavState) : ℝ :=
  let distance := getDistanceToDestination st
  if distance < 0 ∨ st.currentSpeed ≤ 0 then -1
  else distance / st.currentSpeed * 60

/-- The signal-availability predicate recomputed by `checkGPSSignal`:
`satelliteCount >= MIN_SATELLITES && accuracy <= MIN_GPS_ACCURACY`. -/
noncomputable def availOf (sats : ℤ) (acc : ℝ) : Bool :=
  if MIN_SATELLITES ≤ sats ∧ acc ≤ MIN_GPS_ACCURACY then true else false

/-- `GPSNavigator::checkGPSSignal`: recompute `gpsSignalAvailable`, drive the
NAVIGATING↔GPS_LOST transitions on edges, and emit the edge notifications. -/
noncomputable def checkGPSSignal (st : NavState) : NavState × List Notification :=
  let previousSignalStatus := st.gpsSignalAvailable
  let avail := availOf st.satelliteCount st.accuracy
  let st1 := { st with gpsSignalAvailable := avail }
  if avail = false ∧ previousSignalStatus = true then
    ({ st1 with status := if st1.status = .NAVIGATING then .GPS_LOST else st1.status },
     [(Msg.gpsSignalLost, .CRITICAL)])
  else if avail = true ∧ previousSignalStatus = false then
    ({ st1 with status := if st1.status = .GPS_LOST then .NAVIGATING else st1.status },
     [(Msg.gpsSignalRestored, .INFO)])
  else (st1, [])

/-- `GPSNavigator::updateLocation`: reject invalid coordinates (WARNING, no
mutation); otherwise store the location, re-check the signal, and when
NAVIGATING with distance-to-destination below 0.1 km transition to ARRIVED. -/
noncomputable def updateLocation (st : NavState) (location : GPSCoordinate) :
    NavState × List Notification :=
  if ¬ location.isValid then (st, [(Msg.invalidGPSCoordinates, .WARNING)])
  else
    let st1 := { st with currentLocation := location }
    let res := checkGPSSignal st1
    let st2 := res.1
    if st2.status = .NAVIGATING then
      if getDistanceToDestination st2 < 0.1 then
        ({ st2 with status := .ARRIVED }, res.2 ++ [(Msg.destinationReached, .INFO)])
      else (st2, res.2)
    else (st2, res.2)

/-- `GPSNavigator::setDestination`. -/
noncomputable def setDestination (st : NavState) (dest : GPSCoordinate) (name : String) :
    NavState × List Notification :=
  if ¬ dest.isValid then (st, [(Msg.invalidDestination, .WARNING)])
  else
    ({ st with destination := dest, status := .IDLE },
     [(Msg.destinationSet name dest, .INFO)])

/-- `GPSNavigator::startNavigation`. Note: the C++ code does not inspect the
current status; it checks only destination validity and signal availability. -/
noncomputable def startNavigation (st : NavState) : NavState × List Notification :=
  if ¬ st.destination.isValid then (st, [(Msg.noDestinationSet, .WARNING)])
  else if st.gpsSignalAvailable = false then
    (st, [(Msg.gpsUnavailableCannotStart, .CRITICAL)])
  else
    let st1 := { st with status := .NAVIGATING }
    (st1, [(Msg.navigationStarted (getDistanceToDestination st1)
              (getEstimatedTimeToArrival st1), .INFO)])

/-- `GPSNavigator::stopNavigation`. -/
def stopNavigation (st : NavState) : NavState × List Notification :=
  ({ st with status := .IDLE, route := [] }, [(Msg.navigationStopped, .INFO)])

/-- `GPSNavigator::addWaypoint`. -/
noncomputable def addWaypoint (st : NavState) (waypoint : Waypoint) :
    NavState × List Notification :=
  if ¬ waypoint.coordinate.isValid then (st, [(Msg.invalidWaypoint, .WARNING)])
  else ({ st with route := st.route ++ [waypoint] },
        [(Msg.waypointAdded waypoint.name, .INFO)])

/-- `GPSNavigator::clearRoute`. -/
def clearRoute (st : NavState) : NavState := { st with route := [] }

/-- `GPSNavigator::updateSpeed`: clamp to ≥ 0. -/
noncomputable def updateSpeed (st : NavState) (speed : ℝ) : NavState :=
  { st with currentSpeed := max 0 speed }

/-- First normalization loop of `GPSNavigator::updateHeading`:
`while (heading < 0) heading += 360.0`. -/
noncomputable def wrapUp (h : ℝ) : ℝ :=
  if h < 0 then wrapUp (h + 360) else h
termination_by (⌈-h / 360⌉).toNat
decreasing_by
  rename_i hneg
  have h1 : 1 ≤ ⌈-h / 360⌉ := by
    have hp : (0 : ℝ) < -h / 360 := by
      have hn : (0 : ℝ) < -h := by linarith
      positivity
    exact Int.ceil_pos.mpr hp
  have h2 : ⌈-(h + 360) / 360⌉ = ⌈-h / 360⌉ + (-1) := by
    have e : -(h + 360) / 360 = -h / 360 + ((-1 : ℤ) : ℝ) := by push_cast; ring
    rw [e, Int.ceil_add_int]
  omega

/-- Second normalization loop of `GPSNavigator::updateHeading`:
`while (heading >= 360.0) heading -= 360.0`. -/
noncomputable def wrapDown (h : ℝ) : ℝ :=
  if 360 ≤ h then wrapDown (h - 360) else h
termination_by (⌊h / 360⌋).toNat
decreasing_by
  rename_i hge
  have h1 : 1 ≤ ⌊h / 360⌋ := by
    have hp : (1 : ℝ) ≤ h / 360 := by linarith
    exact Int.le_floor.mpr (by exact_mod_cast hp)
  have h2 : ⌊(h - 360) / 360⌋ = ⌊h / 360⌋ + (-1) := by
    have e : (h - 360) / 360 = h / 360 + ((-1 : ℤ) : ℝ) := by push_cast; ring
    rw [e, Int.floor_add_int]
  omega

/-- `GPSNavigator::updateHeading`: normalize into [0, 360) by the two loops. -/
noncomputable def updateHeading (st : NavState) (heading : ℝ) : NavState :=
  { st with currentHeading := wrapDown (wrapUp heading) }

/-- `GPSNavigator::updateGPSSignal`: clamp inputs, store them, re-check signal. -/
noncomputable def updateGPSSignal (st : NavState) (satellites : ℤ) (acc : ℝ) :
    NavState × List Notification :=
  checkGPSSignal { st with satelliteCount := max 0 satellites, accuracy := max 0 acc }

/-- The public mutating operations of the facade. `simulateGPSUpdate` is a
composition of `updateLocation`, `updateSpeed`, `updateHeading` and
`updateGPSSignal` with pseudo-random arguments, so closure under these
operations covers every behaviour it can produce. -/
inductive Op where
  | updateLocation (c : GPSCoordinate)
  | setDestination (c : GPSCoordinate) (name : String)
  | startNavigation
  | stopNavigation
  | addWaypoint (wp : Waypoint)
  | clearRoute
  | updateSpeed (s : ℝ)
  | updateHeading (h : ℝ)
  | updateGPSSignal (sats : ℤ) (acc : ℝ)

/-- State transition of one public operation (notifications discarded). -/
noncomputable def applyOp (st : NavState) : Op → NavState
  | .updateLocation c => (updateLocation st c).1
  | .setDestination c name => (setDestination st c name).1
  | .startNavigation => (startNavigation st).1
  | .stopNavigation => (stopNavigation st).1
  | .addWaypoint wp => (addWaypoint st wp).1
  | .clearRoute => clearRoute st
  | .updateSpeed s => updateSpeed st s
  | .updateHeading h => updateHeading st h
  | .updateGPSSignal sats acc => (updateGPSSignal st sats acc).1

/-- States reachable from a freshly constructed navigator by public operations. -/
inductive Reachable : NavState → Prop where
  | init : Reachable initState
  | step {st : NavState} (h : Reachable st) (op : Op) : Reachable (applyOp st op)

/-- The stored `gpsSignalAvailable` flag agrees with the availability predicate
over the stored satellite count and accuracy (an invariant of the program:
every write to the three fields goes through `checkGPSSignal`). -/
noncomputable def signalSync (st : NavState) : Prop :=
  st.gpsSignalAvailable = availOf st.satelliteCount st.accuracy

/-! ## Helper lemmas -/

theorem isValid_origin : (⟨0, 0, 0⟩ : GPSCoordinate).isValid := by
  constructor <;> constructor <;> norm_num

theorem haversineTerm_symm (a b : GPSCoordinate) :
    haversineTerm a b = haversineTerm b a := by
  simp only [haversineTerm]
  have e1 : (a.latitude - b.latitude) * π / 180 / 2 =
      -((b.latitude - a.latitude) * π / 180 / 2) := by ring
  have e2 : (a.longitude - b.longitude) * π / 180 / 2 =
      -((b.longitude - a.longitude) * π / 180 / 2) := by ring
  rw [e1, e2]
  simp only [Real.sin_neg]
  ring

theorem haversineTerm_self (a : GPSCoordinate) : haversineTerm a a = 0 := by
  simp only [haversineTerm, sub_self, zero_mul, zero_div, Real.sin_zero]
  ring

theorem calculateDistance_symm (a b : GPSCoordinate) :
    calculateDistance a b = calculateDistance b a := by
  by_cases ha : a.isValid <;> by_cases hb : b.isValid <;>
    simp [calculateDistance, ha, hb, haversineTerm_symm a b]

theorem calculateDistance_self (a : GPSCoordinate) (h : a.isValid) :
    calculateDistance a a = 0 := by
  unfold calculateDistance
  rw [if_neg (by simp [h])]
  simp only [haversineTerm_self, Real.sqrt_zero, sub_zero, Real.sqrt_one]
  rw [atan2]
  norm_num [Real.arctan_zero]

theorem arctan_nonneg_aux {t : ℝ} (h : 0 ≤ t) : 0 ≤ arctan t := by
  have := Real.arctan_strictMono.monotone h
  rwa [Real.arctan_zero] at this

theorem atan2_nonneg {y x : ℝ} (hy : 0 ≤ y) : 0 ≤ atan2 y x := by
  unfold atan2
  split_ifs with h1 h2 h3 h4 h5
  · exact arctan_nonneg_aux (div_nonneg hy (le_of_lt h1))
  · have ha := Real.neg_pi_div_two_lt_arctan (y / x)
    have hπ := Real.pi_pos
    linarith
  · exact absurd h3.2 (not_lt.mpr hy)
  · have hπ := Real.pi_pos
    linarith
  · exact absurd h5.2 (not_lt.mpr hy)
  · exact le_refl 0

theorem calculateDistance_nonneg (a b : GPSCoordinate)
    (ha : a.isValid) (hb : b.isValid) : 0 ≤ calculateDistance a b := by
  unfold calculateDistance
  rw [if_neg (by simp [ha, hb])]
  have h1 : 0 ≤ atan2 (Real.sqrt (haversineTerm a b))
      (Real.sqrt (1 - haversineTerm a b)) := atan2_nonneg (Real.sqrt_nonneg _)
  have h2 : (0 : ℝ) ≤ EARTH_RADIUS_KM := by norm_num [EARTH_RADIUS_KM]
  positivity

theorem checkGPSSignal_fields (st : NavState) :
    (checkGPSSignal st).1.currentLocation = st.currentLocation ∧
    (checkGPSSignal st).1.destination = st.destination ∧
    (checkGPSSignal st).1.satelliteCount = st.satelliteCount ∧
    (checkGPSSignal st).1.accuracy = st.accuracy ∧
    (checkGPSSignal st).1.gpsSignalAvailable = availOf st.satelliteCount st.accuracy := by
  simp only [checkGPSSignal]
  split_ifs <;> simp

theorem checkGPSSignal_establishes_sync (st : NavState) :
    signalSync (checkGPSSignal st).1 := by
  obtain ⟨_, _, h3, h4, h5⟩ := checkGPSSignal_fields st
  rw [signalSync, h3, h4, h5]

theorem checkGPSSignal_sync (st : NavState) (h : signalSync st) :
    checkGPSSignal st = (st, []) := by
  rw [signalSync] at h
  simp only [checkGPSSignal, ← h]
  rcases hb : st.gpsSignalAvailable with _ | _
  · rw [if_neg (by simp [hb]), if_neg (by simp [hb]), ← hb]
  · rw [if_neg (by simp [hb]), if_neg (by simp [hb]), ← hb]

theorem wrapUp_nonneg_exists (h : ℝ) :
    0 ≤ wrapUp h ∧ ∃ k : ℤ, wrapUp h = h + 360 * k := by
  induction h using wrapUp.induct with
  | case1 h hneg ih =>
    rw [wrapUp, if_pos hneg]
    obtain ⟨hnn, k, hk⟩ := ih
    exact ⟨hnn, ⟨k + 1, by rw [hk]; push_cast; ring⟩⟩
  | case2 h hpos =>
    rw [wrapUp, if_neg hpos]
    exact ⟨not_lt.mp hpos, ⟨0, by ring⟩⟩

theorem wrapDown_lt_exists (h : ℝ) :
    wrapDown h < 360 ∧ (0 ≤ h → 0 ≤ wrapDown h) ∧
      ∃ k : ℤ, wrapDown h = h + 360 * k := by
  induction h using wrapDown.induct with
  | case1 h hge ih =>
    rw [wrapDown, if_pos hge]
    obtain ⟨hlt, hnn, k, hk⟩ := ih
    refine ⟨hlt, fun _ => hnn (by linarith), ⟨k - 1, by rw [hk]; push_cast; ring⟩⟩
  | case2 h hlt =>
    rw [wrapDown, if_neg hlt]
    exact ⟨not_le.mp hlt, fun hh => hh, ⟨0, by ring⟩⟩

theorem normalize_unique {x r r' : ℝ} (h1 : 0 ≤ r) (h2 : r < 360)
    (h3 : 0 ≤ r') (h4 : r' < 360) (k k' : ℤ)
    (e1 : r = x + 360 * k) (e2 : r' = x + 360 * k') : r = r' := by
  have hmul : (360 : ℝ) * ((k - k' : ℤ) : ℝ) = r - r' := by push_cast; linarith
  have c1 : ((k - k' : ℤ) : ℝ) < 1 := by nlinarith
  have c2 : (-1 : ℝ) < ((k - k' : ℤ) : ℝ) := by nlinarith
  have i1 : k - k' < 1 := by exact_mod_cast c1
  have i2 : -1 < k - k' := by exact_mod_cast c2
  have hk : k = k' := by omega
  subst hk
  linarith

theorem updateLocation_coord_fields (st : NavState) (loc : GPSCoordinate)
    (hv : loc.isValid) :
    (updateLocation st loc).1.currentLocation = loc ∧
    (updateLocation st loc).1.destination = st.destination := by
  simp only [updateLocation, if_neg (not_not_intro hv)]
  obtain ⟨f1, f2, _, _, _⟩ := checkGPSSignal_fields { st with currentLocation := loc }
  split_ifs <;> simp_all

theorem updateLocation_signal_fields (st : NavState) (loc : GPSCoordinate)
    (hv : loc.isValid) :
    (updateLocation st loc).1.gpsSignalAvailable =
        (checkGPSSignal { st with currentLocation := loc }).1.gpsSignalAvailable ∧
    (updateLocation st loc).1.satelliteCount =
        (checkGPSSignal { st with currentLocation := loc }).1.satelliteCount ∧
    (updateLocation st loc).1.accuracy =
        (checkGPSSignal { st with currentLocation := loc }).1.accuracy := by
  simp only [updateLocation, if_neg (not_not_intro hv)]
  split_ifs <;> simp

theorem applyOp_coords (st : NavState) (op : Op) :
    ((applyOp st op).currentLocation = st.currentLocation ∨
      (applyOp st op).currentLocation.isValid) ∧
    ((applyOp st op).destination = st.destination ∨
      (applyOp st op).destination.isValid) := by
  rcases op with c | ⟨c, name⟩ | _ | _ | wp | _ | s | hh | ⟨sats, acc⟩
  · by_cases hv : c.isValid
    · obtain ⟨f1, f2⟩ := updateLocation_coord_fields st c hv
      exact ⟨Or.inr (by simp only [applyOp]; rw [f1]; exact hv), Or.inl f2⟩
    · simp [applyOp, updateLocation, hv]
  · by_cases hv : c.isValid
    · simp [applyOp, setDestination, hv]
    · simp [applyOp, setDestination, hv]
  · simp only [applyOp, startNavigation]
    split_ifs <;> simp
  · simp [applyOp, stopNavigation]
  · by_cases hv : wp.coordinate.isValid <;> simp [applyOp, addWaypoint, hv]
  · simp [applyOp, clearRoute]
  · simp [applyOp, updateSpeed]
  · simp [applyOp, updateHeading]
  · obtain ⟨f1, f2, _, _, _⟩ :=
      checkGPSSignal_fields { st with satelliteCount := max 0 sats, accuracy := max 0 acc }
    exact ⟨Or.inl f1, Or.inl f2⟩

theorem reachable_coords_valid {st : NavState} (h : Reachable st) :
    st.currentLocation.isValid ∧ st.destination.isValid := by
  induction h with
  | init => exact ⟨isValid_origin, isValid_origin⟩
  | step h op ih =>
    obtain ⟨ih1, ih2⟩ := ih
    obtain ⟨c1, c2⟩ := applyOp_coords _ op
    constructor
    · rcases c1 with e | v
      · rw [e]; exact ih1
      · exact v
    · rcases c2 with e | v
      · rw [e]; exact ih2
      · exact v

theorem applyOp_sync (st : NavState) (op : Op) (h : signalSync st) :
    signalSync (applyOp st op) := by
  rcases op with c | ⟨c, name⟩ | _ | _ | wp | _ | s | hh | ⟨sats, acc⟩
  · by_cases hv : c.isValid
    · obtain ⟨f1, f2, f3⟩ := updateLocation_signal_fields st c hv
      have hs := checkGPSSignal_establishes_sync { st with currentLocation := c }
      rw [signalSync] at hs ⊢
      simp only [applyOp]
      rw [f1, f2, f3]
      exact hs
    · simpa [applyOp, updateLocation, hv] using h
  · by_cases hv : c.isValid
    · rw [signalSync] at h ⊢
      simpa [applyOp, setDestination, hv] using h
    · simpa [applyOp, setDestination, hv] using h
  · rw [signalSync] at h ⊢
    simp only [applyOp, startNavigation]
    split_ifs <;> simpa using h
  · rw [signalSync] at h ⊢
    simpa [applyOp, stopNavigation] using h
  · rw [signalSync] at h ⊢
    by_cases hv : wp.coordinate.isValid <;> simpa [applyOp, addWaypoint, hv] using h
  · rw [signalSync] at h ⊢
    simpa [applyOp, clearRoute] using h
  · rw [signalSync] at h ⊢
    simpa [applyOp, updateSpeed] using h
  · rw [signalSync] at h ⊢
    simpa [applyOp, updateHeading] using h
  · exact checkGPSSignal_establishes_sync _

theorem reachable_signalSync {st : NavState} (h : Reachable st) : signalSync st := by
  induction h with
  | init => rw [signalSync]; norm_num [initState, availOf, MIN_SATELLITES, MIN_GPS_ACCURACY]
  | step h op ih => exact applyOp_sync _ op ih

theorem updateLocation_valid_sync (st : NavState) (loc : GPSCoordinate)
    (hsync : signalSync st) (hv : loc.isValid) :
    updateLocation st loc =
      if st.status = NavigationStatus.NAVIGATING ∧
          getDistanceToDestination { st with currentLocation := loc } < 0.1 then
        ({ st with currentLocation := loc, status := .ARRIVED },
         [(Msg.destinationReached, AlertLevel.INFO)])
      else ({ st with currentLocation := loc }, []) := by
  have hsync1 : signalSync { st with currentLocation := loc } := hsync
  simp only [updateLocation, if_neg (not_not_intro hv),
    checkGPSSignal_sync _ hsync1]
  by_cases h1 : st.status = NavigationStatus.NAVIGATING
  · by_cases h2 : getDistanceToDestination { st with currentLocation := loc } < 0.1
    · simp [h1, h2]
    · simp [h1, h2]
  · simp [h1]

/-! ## Claim theorems -/

/-- C6: for every pair of coordinates, `calculateDistance` equals the haversine
great-circle distance on a sphere of radius 6371.0 km as written in the
specification (`h = sin²(Δlat/2) + cos(lat1)·cos(lat2)·sin²(Δlon/2)`,
`2·6371·atan2(√h, √(1−h))`, angles in radians), and returns −1 when either
input is invalid. -/
theorem calculateDistance_refines_spec (a b : GPSCoordinate) :
    calculateDistance a b = distanceSpec a b := by
  simp only [calculateDistance, distanceSpec, haversineTerm]
  split_ifs with h
  · rfl
  · have e : sin ((b.latitude - a.latitude) * π / 180 / 2) *
        sin ((b.latitude - a.latitude) * π / 180 / 2) +
        cos (a.latitude * π / 180) * cos (b.latitude * π / 180) *
        sin ((b.longitude - a.longitude) * π / 180 / 2) *
        sin ((b.longitude - a.longitude) * π / 180 / 2) =
        sin ((b.latitude - a.latitude) * π / 180 / 2) ^ 2 +
        cos (a.latitude * π / 180) * cos (b.latitude * π / 180) *
        sin ((b.longitude - a.longitude) * π / 180 / 2) ^ 2 := by ring
    rw [e]
    simp only [EARTH_RADIUS_KM]
    ring

/-- C8: for all valid coordinates `a`, `b`, the distance is symmetric (here
proved as exact equality, which implies equality within the 1e-6 tolerance the
specification allows), and the distance from a valid coordinate to itself is 0. -/
theorem calculateDistance_symm_and_self :
    (∀ a b : GPSCoordinate, a.isValid → b.isValid →
      calculateDistance a b = calculateDistance b a) ∧
    (∀ a : GPSCoordinate, a.isValid → calculateDistance a a = 0) :=
  ⟨fun a b _ _ => calculateDistance_symm a b,
   fun a ha => calculateDistance_self a ha⟩

/-- C8 witness: concrete valid coordinates instantiating both conjuncts. -/
theorem calculateDistance_symm_and_self_witness :
    (⟨0, 0, 0⟩ : GPSCoordinate).isValid ∧
    (⟨10, 20, 0⟩ : GPSCoordinate).isValid ∧
    calculateDistance ⟨0, 0, 0⟩ ⟨10, 20, 0⟩ = calculateDistance ⟨10, 20, 0⟩ ⟨0, 0, 0⟩ ∧
    calculateDistance ⟨0, 0, 0⟩ ⟨0, 0, 0⟩ = 0 := by
  have hv : (⟨10, 20, 0⟩ : GPSCoordinate).isValid := by
    norm_num [GPSCoordinate.isValid]
  exact ⟨isValid_origin, hv,
    calculateDistance_symm_and_self.1 _ _ isValid_origin hv,
    calculateDistance_symm_and_self.2 _ isValid_origin⟩

/-- C9: `updateHeading`'s normalization by repeated addition/subtraction of 360
(the two `while` loops, here total functions whose well-founded recursion is the
termination argument) stores the unique value of `[0, 360)` congruent to the
input modulo 360; in particular 450 normalizes to 90 and −90 to 270. -/
theorem updateHeading_normalizes (st : NavState) (heading : ℝ) :
    (0 ≤ (updateHeading st heading).currentHeading ∧
     (updateHeading st heading).currentHeading < 360 ∧
     (∃ k : ℤ, (updateHeading st heading).currentHeading = heading + 360 * k) ∧
     (∀ r' : ℝ, 0 ≤ r' → r' < 360 →
       (∃ k : ℤ, r' = heading + 360 * k) →
       r' = (updateHeading st heading).currentHeading)) ∧
    (updateHeading st 450).currentHeading = 90 ∧
    (updateHeading st (-90)).currentHeading = 270 := by
  have hch : ∀ x : ℝ, (updateHeading st x).currentHeading = wrapDown (wrapUp x) := by
    intro x; simp [updateHeading]
  refine ⟨?_, ?_, ?_⟩
  · obtain ⟨h1, k1, e1⟩ := wrapUp_nonneg_exists heading
    obtain ⟨h2, h3, k2, e2⟩ := wrapDown_lt_exists (wrapUp heading)
    rw [hch]
    have e12 : wrapDown (wrapUp heading) = heading + 360 * (k1 + k2 : ℤ) := by
      rw [e2, e1]; push_cast; ring
    refine ⟨h3 h1, h2, ⟨k1 + k2, e12⟩, ?_⟩
    rintro r' hr1 hr2 ⟨k', e'⟩
    exact normalize_unique hr1 hr2 (h3 h1) h2 k' (k1 + k2) e' e12
  · rw [hch]
    rw [wrapUp, if_neg (by norm_num)]
    rw [wrapDown, if_pos (by norm_num)]
    have e : (450 : ℝ) - 360 = 90 := by norm_num
    rw [e, wrapDown, if_neg (by norm_num)]
  · rw [hch]
    rw [wrapUp, if_pos (by norm_num)]
    have e : (-90 : ℝ) + 360 = 270 := by norm_num
    rw [e, wrapUp, if_neg (by norm_num)]
    rw [wrapDown, if_neg (by norm_num)]

/-- C9 witness: the concrete normalizations evaluated on the initial state. -/
theorem updateHeading_normalizes_witness :
    (updateHeading initState 450).currentHeading = 90 ∧
    (updateHeading initState (-90)).currentHeading = 270 :=
  ⟨(updateHeading_normalizes initState 0).2.1,
   (updateHeading_normalizes initState 0).2.2⟩

/-- C1 evaluation at the failing input: on a freshly constructed navigator with
`setDestination` never called, `startNavigation` does NOT stay IDLE with a
WARNING; the default destination (0,0,0) passes `isValid`, the signal is
initially available, so the status becomes NAVIGATING and the single emitted
notification is the INFO "Navigation started" message (with distance 0 and the
−1 ETA sentinel, since speed is 0). -/
theorem startNavigation_fresh_navigator_evaluation :
    startNavigation initState =
      ({ initState with status := NavigationStatus.NAVIGATING },
       [(Msg.navigationStarted 0 (-1), AlertLevel.INFO)]) := by
  have h0 : ¬ ¬ (initState.destination).isValid := not_not_intro isValid_origin
  have hsig : ¬ (initState.gpsSignalAvailable = false) := by simp [initState]
  have hd : getDistanceToDestination
      { initState with status := NavigationStatus.NAVIGATING } = 0 := by
    rw [getDistanceToDestination, if_neg (by simp [initState, isValid_origin])]
    exact calculateDistance_self _ isValid_origin
  have he : getEstimatedTimeToArrival
      { initState with status := NavigationStatus.NAVIGATING } = -1 := by
    simp only [getEstimatedTimeToArrival, hd]
    norm_num [initState]
  simp only [startNavigation, if_neg h0, if_neg hsig, hd, he]

/-- C2 counterexample: in a state with status ARRIVED, a valid destination and
an available signal, `startNavigation` changes the status to NAVIGATING — it is
not a no-op from a non-IDLE status. -/
theorem startNavigation_from_arrived_counterexample :
    (startNavigation
      { currentLocation := ⟨0, 0, 0⟩, destination := ⟨0, 0, 0⟩,
        status := NavigationStatus.ARRIVED, currentSpeed := 0,
        currentHeading := 0, gpsSignalAvailable := true,
        satelliteCount := 8, accuracy := 3,
        route := [] }).1.status = NavigationStatus.NAVIGATING ∧
    NavigationStatus.NAVIGATING ≠ NavigationStatus.ARRIVED := by
  constructor
  · simp only [startNavigation]
    rw [if_neg (by simp [isValid_origin]), if_neg (by simp)]
  · simp

/-- C2 amended: `startNavigation` does not inspect the current status. Whenever
the destination is invalid or the signal unavailable it leaves the whole state
unchanged (from any status); whenever the destination is valid and the signal
available it sets the status to NAVIGATING regardless of the current status. -/
theorem startNavigation_ignores_status (st : NavState) :
    (¬ st.destination.isValid ∨ st.gpsSignalAvailable = false →
      (startNavigation st).1 = st) ∧
    (st.destination.isValid → st.gpsSignalAvailable = true →
      (startNavigation st).1 = { st with status := NavigationStatus.NAVIGATING }) := by
  constructor
  · rintro (h | h)
    · simp [startNavigation, h]
    · by_cases hd : st.destination.isValid
      · simp [startNavigation, hd, h]
      · simp [startNavigation, hd]
  · intro hd hs
    simp [startNavigation, hd, hs]

/-- C2 amended witness: a GPS_LOST state with unavailable signal is left
unchanged, and an ARRIVED state with valid destination and available signal is
sent to NAVIGATING. -/
theorem startNavigation_ignores_status_witness :
    (startNavigation
      { currentLocation := ⟨0, 0, 0⟩, destination := ⟨0, 0, 0⟩,
        status := NavigationStatus.GPS_LOST, currentSpeed := 0,
        currentHeading := 0, gpsSignalAvailable := false,
        satelliteCount := 1, accuracy := 3, route := [] }).1 =
      { currentLocation := ⟨0, 0, 0⟩, destination := ⟨0, 0, 0⟩,
        status := NavigationStatus.GPS_LOST, currentSpeed := 0,
        currentHeading := 0, gpsSignalAvailable := false,
        satelliteCount := 1, accuracy := 3, route := [] } ∧
    (startNavigation
      { currentLocation := ⟨0, 0, 0⟩, destination := ⟨0, 0, 0⟩,
        status := NavigationStatus.ARRIVED, currentSpeed := 0,
        currentHeading := 0, gpsSignalAvailable := true,
        satelliteCount := 8, accuracy := 3, route := [] }).1 =
      { currentLocation := ⟨0, 0, 0⟩, destination := ⟨0, 0, 0⟩,
        status := NavigationStatus.NAVIGATING, currentSpeed := 0,
        currentHeading := 0, gpsSignalAvailable := true,
        satelliteCount := 8, accuracy := 3, route := [] } :=
  ⟨(startNavigation_ignores_status _).1 (Or.inr rfl),
   (startNavigation_ignores_status _).2 isValid_origin rfl⟩

/-- C3: in a state whose stored signal flag is in sync with its satellite/
accuracy fields (an invariant of every program state, `reachable_signalSync`),
`updateLocation` with a valid coordinate within 0.1 km of the destination while
NAVIGATING sets status ARRIVED and emits exactly the one INFO
"Destination reached!" notification; in any status other than NAVIGATING (and
not already ARRIVED), `updateLocation` never yields ARRIVED. -/
theorem updateLocation_arrival (st : NavState) (loc : GPSCoordinate)
    (hsync : signalSync st) :
    (st.status = NavigationStatus.NAVIGATING → loc.isValid →
      calculateDistance loc st.destination < 0.1 →
      updateLocation st loc =
        ({ st with currentLocation := loc, status := NavigationStatus.ARRIVED },
         [(Msg.destinationReached, AlertLevel.INFO)])) ∧
    (st.status ≠ NavigationStatus.NAVIGATING →
      st.status ≠ NavigationStatus.ARRIVED →
      (updateLocation st loc).1.status ≠ NavigationStatus.ARRIVED) := by
  constructor
  · intro hnav hv hdist
    have hgd : getDistanceToDestination { st with currentLocation := loc } < 0.1 := by
      rw [getDistanceToDestination]
      by_cases hdv : st.destination.isValid
      · rw [if_neg (by simp [hdv, hv])]
        simpa using hdist
      · rw [if_pos (by simp [hdv])]
        norm_num
    rw [updateLocation_valid_sync st loc hsync hv, if_pos ⟨hnav, hgd⟩]
  · intro hnnav hnarr
    by_cases hv : loc.isValid
    · rw [updateLocation_valid_sync st loc hsync hv,
        if_neg (fun hcontra => hnnav hcontra.1)]
      simpa using hnarr
    · rw [updateLocation, if_pos hv]
      simpa using hnarr

/-- C3 witness: a NAVIGATING state with destination (10,20) and a location
update exactly at the destination (distance 0 < 0.1 km) arrives. -/
theorem updateLocation_arrival_witness :
    signalSync
      { currentLocation := ⟨0, 0, 0⟩, destination := ⟨10, 20, 0⟩,
        status := NavigationStatus.NAVIGATING, currentSpeed := 0,
        currentHeading := 0, gpsSignalAvailable := true,
        satelliteCount := 8, accuracy := 3, route := [] } ∧
    updateLocation
      { currentLocation := ⟨0, 0, 0⟩, destination := ⟨10, 20, 0⟩,
        status := NavigationStatus.NAVIGATING, currentSpeed := 0,
        currentHeading := 0, gpsSignalAvailable := true,
        satelliteCount := 8, accuracy := 3, route := [] } ⟨10, 20, 0⟩ =
      ({ currentLocation := ⟨10, 20, 0⟩, destination := ⟨10, 20, 0⟩,
         status := NavigationStatus.ARRIVED, currentSpeed := 0,
         currentHeading := 0, gpsSignalAvailable := true,
         satelliteCount := 8, accuracy := 3, route := [] },
       [(Msg.destinationReached, AlertLevel.INFO)]) := by
  have hs : signalSync
      { currentLocation := ⟨0, 0, 0⟩, destination := ⟨10, 20, 0⟩,
        status := NavigationStatus.NAVIGATING, currentSpeed := 0,
        currentHeading := 0, gpsSignalAvailable := true,
        satelliteCount := 8, accuracy := 3, route := [] } := by
    rw [signalSync]
    norm_num [availOf, MIN_SATELLITES, MIN_GPS_ACCURACY]
  have hv : (⟨10, 20, 0⟩ : GPSCoordinate).isValid := by
    norm_num [GPSCoordinate.isValid]
  have hd : calculateDistance ⟨10, 20, 0⟩ (⟨10, 20, 0⟩ : GPSCoordinate) < 0.1 := by
    rw [calculateDistance_self _ hv]
    norm_num
  exact ⟨hs, (updateLocation_arrival _ _ hs).1 rfl hv hd⟩

/-- C4: for `updateGPSSignal`, a true→false availability transition while
NAVIGATING forces GPS_LOST; a false→true transition while GPS_LOST resumes
NAVIGATING; and while IDLE, ARRIVED or OFF_ROUTE the status is never changed by
`updateGPSSignal`, whatever the signal inputs. -/
theorem updateGPSSignal_status_transitions (st : NavState) (sats : ℤ) (acc : ℝ) :
    (st.gpsSignalAvailable = true → availOf (max 0 sats) (max 0 acc) = false →
      st.status = NavigationStatus.NAVIGATING →
      (updateGPSSignal st sats acc).1.status = NavigationStatus.GPS_LOST) ∧
    (st.gpsSignalAvailable = false → availOf (max 0 sats) (max 0 acc) = true →
      st.status = NavigationStatus.GPS_LOST →
      (updateGPSSignal st sats acc).1.status = NavigationStatus.NAVIGATING) ∧
    (st.status = NavigationStatus.IDLE ∨ st.status = NavigationStatus.ARRIVED ∨
      st.status = NavigationStatus.OFF_ROUTE →
      (updateGPSSignal st sats acc).1.status = st.status) := by
  refine ⟨?_, ?_, ?_⟩
  · intro hprev havail hnav
    simp only [updateGPSSignal, checkGPSSignal]
    simp [havail, hprev, hnav]
  · intro hprev havail hlost
    simp only [updateGPSSignal, checkGPSSignal]
    simp [havail, hprev, hlost]
  · intro h
    simp only [updateGPSSignal, checkGPSSignal]
    split_ifs <;> rcases h with h | h | h <;> simp_all

/-- C4 witness: while NAVIGATING, satellites=1 loses the signal (GPS_LOST);
while GPS_LOST with the signal flag false, satellites=8/accuracy=3 restores
NAVIGATING; while IDLE a losing update leaves the status IDLE. -/
theorem updateGPSSignal_status_transitions_witness :
    (updateGPSSignal
      { currentLocation := ⟨0, 0, 0⟩, destination := ⟨10, 20, 0⟩,
        status := NavigationStatus.NAVIGATING, currentSpeed := 0,
        currentHeading := 0, gpsSignalAvailable := true,
        satelliteCount := 8, accuracy := 3, route := [] } 1 3).1.status =
      NavigationStatus.GPS_LOST ∧
    (updateGPSSignal
      { currentLocation := ⟨0, 0, 0⟩, destination := ⟨10, 20, 0⟩,
        status := NavigationStatus.GPS_LOST, currentSpeed := 0,
        currentHeading := 0, gpsSignalAvailable := false,
        satelliteCount := 1, accuracy := 3, route := [] } 8 3).1.status =
      NavigationStatus.NAVIGATING ∧
    (updateGPSSignal
      { currentLocation := ⟨0, 0, 0⟩, destination := ⟨10, 20, 0⟩,
        status := NavigationStatus.IDLE, currentSpeed := 0,
        currentHeading := 0, gpsSignalAvailable := true,
        satelliteCount := 8, accuracy := 3, route := [] } 1 3).1.status =
      NavigationStatus.IDLE := by
  have hlose : availOf (max 0 (1 : ℤ)) (max 0 (3 : ℝ)) = false := by
    have e1 : max 0 (1 : ℤ) = 1 := by omega
    have e2 : max 0 (3 : ℝ) = 3 := by norm_num
    rw [e1, e2, availOf]
    norm_num [MIN_SATELLITES]
  have hgain : availOf (max 0 (8 : ℤ)) (max 0 (3 : ℝ)) = true := by
    have e1 : max 0 (8 : ℤ) = 8 := by omega
    have e2 : max 0 (3 : ℝ) = 3 := by norm_num
    rw [e1, e2, availOf]
    norm_num [MIN_SATELLITES, MIN_GPS_ACCURACY]
  exact ⟨(updateGPSSignal_status_transitions _ 1 3).1 rfl hlose rfl,
    (updateGPSSignal_status_transitions _ 8 3).2.1 rfl hgain rfl,
    (updateGPSSignal_status_transitions _ 1 3).2.2 (Or.inl rfl)⟩

/-- C5: `updateGPSSignal` stores the clamped satellite count and accuracy,
recomputes availability from the clamped values, and emits exactly one CRITICAL
"GPS signal lost" notification on a true→false transition, exactly one INFO
"GPS signal restored" notification on a false→true transition, and none when
availability does not change. -/
theorem updateGPSSignal_clamps_and_notifies (st : NavState) (sats : ℤ) (acc : ℝ) :
    (updateGPSSignal st sats acc).1.satelliteCount = max 0 sats ∧
    (updateGPSSignal st sats acc).1.accuracy = max 0 acc ∧
    (updateGPSSignal st sats acc).1.gpsSignalAvailable =
      availOf (max 0 sats) (max 0 acc) ∧
    (updateGPSSignal st sats acc).2 =
      (if st.gpsSignalAvailable = true ∧ availOf (max 0 sats) (max 0 acc) = false
       then [(Msg.gpsSignalLost, AlertLevel.CRITICAL)]
       else if st.gpsSignalAvailable = false ∧
           availOf (max 0 sats) (max 0 acc) = true
       then [(Msg.gpsSignalRestored, AlertLevel.INFO)]
       else []) := by
  obtain ⟨_, _, f3, f4, f5⟩ :=
    checkGPSSignal_fields { st with satelliteCount := max 0 sats, accuracy := max 0 acc }
  refine ⟨by simpa using f3, by simpa using f4, by simpa using f5, ?_⟩
  rcases hp : st.gpsSignalAvailable with _ | _ <;>
    rcases ha : availOf (max 0 sats) (max 0 acc) with _ | _ <;>
    simp [updateGPSSignal, checkGPSSignal, hp, ha]

/-- C7: each coordinate-accepting operation (`updateLocation`, `setDestination`,
`addWaypoint`) rejects an invalid coordinate: the entire session state is
returned unchanged and exactly one WARNING notification is emitted. -/
theorem invalid_coordinate_rejection (st : NavState) (c : GPSCoordinate)
    (name : String) (wp : Waypoint)
    (hc : ¬ c.isValid) (hw : ¬ wp.coordinate.isValid) :
    updateLocation st c = (st, [(Msg.invalidGPSCoordinates, AlertLevel.WARNING)]) ∧
    setDestination st c name = (st, [(Msg.invalidDestination, AlertLevel.WARNING)]) ∧
    addWaypoint st wp = (st, [(Msg.invalidWaypoint, AlertLevel.WARNING)]) := by
  refine ⟨?_, ?_, ?_⟩
  · rw [updateLocation, if_pos hc]
  · rw [setDestination, if_pos hc]
  · rw [addWaypoint, if_pos hw]

/-- C7 witness: latitude 91 is rejected by all three operations on the initial
state, leaving it unchanged (in particular `currentLocation`). -/
theorem invalid_coordinate_rejection_witness :
    ¬ (⟨91, 0, 0⟩ : GPSCoordinate).isValid ∧
    updateLocation initState ⟨91, 0, 0⟩ =
      (initState, [(Msg.invalidGPSCoordinates, AlertLevel.WARNING)]) ∧
    setDestination initState ⟨91, 0, 0⟩ "Destination" =
      (initState, [(Msg.invalidDestination, AlertLevel.WARNING)]) ∧
    addWaypoint initState ⟨⟨91, 0, 0⟩, "wp", ""⟩ =
      (initState, [(Msg.invalidWaypoint, AlertLevel.WARNING)]) := by
  have hc : ¬ (⟨91, 0, 0⟩ : GPSCoordinate).isValid := by
    norm_num [GPSCoordinate.isValid]
  exact ⟨hc, invalid_coordinate_rejection initState ⟨91, 0, 0⟩ "Destination"
    ⟨⟨91, 0, 0⟩, "wp", ""⟩ hc hc⟩

/-- C10: in every state reachable from a freshly constructed navigator by
public operations, both the current location and the destination are valid, so
`getDistanceToDestination` never returns −1 (its invalid-input branch is
unreachable). -/
theorem reachable_coords_valid_distance (st : NavState) (h : Reachable st) :
    st.currentLocation.isValid ∧ st.destination.isValid ∧
    getDistanceToDestination st ≠ -1 := by
  obtain ⟨h1, h2⟩ := reachable_coords_valid h
  refine ⟨h1, h2, ?_⟩
  rw [getDistanceToDestination, if_neg (by simp [h1, h2])]
  have hnn := calculateDistance_nonneg _ _ h1 h2
  intro heq
  rw [heq] at hnn
  norm_num at hnn

/-- C10 witness: the initial state is reachable and satisfies the invariant. -/
theorem reachable_coords_valid_distance_witness :
    initState.currentLocation.isValid ∧ initState.destination.isValid ∧
    getDistanceToDestination initState ≠ -1 :=
  reachable_coords_valid_distance initState Reachable.init

end VehicleGPS
